import Mathlib

/-!
Shallow embedding of pcpug-rs (src/main.rs): a CLI tool that fetches
compound records from a REST API, decodes the JSON body into a Compound
record, renders a text report, and plots bonds as line segments.

Modelling conventions:
* Rust u32 is carried as Nat (the decoder enforces the 2^32 bound);
  i32 as Int (decoder enforces the range); no arithmetic is performed
  on these values by the program.
* Rust f64 is carried opaquely as Rat: the program performs no float
  arithmetic on coordinate or descriptor values, it only moves them
  from the decoder to the renderer/plotter, so any value type with
  decidable equality is a faithful carrier.  The exact digit strings
  Rust's Debug formatting would produce for floats are abstracted by
  fmtF64; no claim depends on them.
* serde_json decoding is modelled on a Json tree: a struct decodes from
  an object, unknown keys are ignored (serde default), an Option field
  is none when its key is missing or null, a required field errors when
  missing, and a value of the wrong shape fails the whole decode.
* A Rust panic (Vec index out of range) is a distinct outcome
  (PlotOutcome.panicked / RunHalt.panicked) that aborts the process.
-/

namespace Pcpug

/-- JSON value tree, the input of the serde-modelled decoders.  Numbers
are carried as Rat; an integer-valued number has denominator 1. -/
inductive Json where
  | null
  | bool (b : Bool)
  | num (q : Rat)
  | str (s : String)
  | arr (xs : List Json)
  | obj (kvs : List (String × Json))

/-- Rust f64, carried opaquely (see module conventions). -/
abbrev F64 := Rat

/-- struct AtomInfo: aid: Vec of u32, element: Vec of u32. -/
structure AtomInfo where
  aid : List Nat
  element : List Nat
deriving DecidableEq

/-- struct BondInfo: aid1, aid2, order: Vec of u32. -/
structure BondInfo where
  aid1 : List Nat
  aid2 : List Nat
  order : List Nat
deriving DecidableEq

/-- struct Conformer: x, y: Vec of f64. -/
structure Conformer where
  x : List F64
  y : List F64
deriving DecidableEq

/-- struct Coords: conformers: Vec of Conformer. -/
structure Coords where
  conformers : List Conformer
deriving DecidableEq

/-- struct Urn: all fields optional. -/
structure Urn where
  datatype : Option Nat
  label : Option String
  name : Option String
  release : Option String
  software : Option String
  source : Option String
  version : Option String
deriving DecidableEq

/-- struct PropertyValue: all fields optional. -/
structure PropertyValue where
  fval : Option F64
  ival : Option Nat
  sval : Option String
  binary : Option String
deriving DecidableEq

/-- struct Props: urn and value are required fields. -/
structure Props where
  urn : Urn
  value : PropertyValue
deriving DecidableEq

/-- struct Tetrahedral: seven required u32 fields; the JSON key of
ttype is the word type (serde rename). -/
structure Tetrahedral where
  above : Nat
  below : Nat
  bottom : Nat
  center : Nat
  parity : Nat
  top : Nat
  ttype : Nat
deriving DecidableEq

/-- struct Stereo: tetrahedral is optional. -/
structure Stereo where
  tetrahedral : Option Tetrahedral
deriving DecidableEq

/-- struct IUPACName: one optional field whose JSON key is IUPACName
(serde rename), internal name differs from the wire name. -/
structure IUPACName where
  name : Option String
deriving DecidableEq

/-- struct Compound: every field is optional. -/
structure Compound where
  cid : Option Nat
  atoms : Option AtomInfo
  bonds : Option (List BondInfo)
  coords : Option (List Coords)
  props : Option (List Props)
  stereo : Option (List Stereo)
  molecular_formula : Option String
  molecular_weight : Option F64
  inchi : Option String
  inchikey : Option String
  isomeric_smiles : Option String
  tpsa : Option F64
  xlogp : Option F64
  exact_mass : Option F64
  complexity : Option F64
  h_bond_donor_count : Option Nat
  h_bond_acceptor_count : Option Nat
  rotatable_bond_count : Option Nat
  heavy_atom_count : Option Nat
  charge : Option Int
  iupac : Option (List IUPACName)
deriving DecidableEq

/-- Decidable equality on Except, used to evaluate decoder results on
concrete inputs. -/
instance {ε α : Type} [DecidableEq ε] [DecidableEq α] :
    DecidableEq (Except ε α) := fun a b =>
  match a, b with
  | .error e, .error e' =>
      if h : e = e' then .isTrue (by rw [h]) else
        .isFalse (fun hc => h (by injection hc))
  | .error _, .ok _ => .isFalse (fun hc => Except.noConfusion hc)
  | .ok _, .error _ => .isFalse (fun hc => Except.noConfusion hc)
  | .ok x, .ok y =>
      if h : x = y then .isTrue (by rw [h]) else
        .isFalse (fun hc => h (by injection hc))

/-- serde u32 decode: an integer-valued JSON number in range. -/
def decodeU32 : Json → Except String Nat
  | .num q =>
      if q.den = 1 ∧ 0 ≤ q.num ∧ q.num < 4294967296 then .ok q.num.toNat
      else .error "invalid value: expected u32"
  | _ => .error "invalid type: expected u32"

/-- serde i32 decode: an integer-valued JSON number in range. -/
def decodeI32 : Json → Except String Int
  | .num q =>
      if q.den = 1 ∧ -2147483648 ≤ q.num ∧ q.num < 2147483648 then .ok q.num
      else .error "invalid value: expected i32"
  | _ => .error "invalid type: expected i32"

/-- serde f64 decode: any JSON number. -/
def decodeF64 : Json → Except String F64
  | .num q => .ok q
  | _ => .error "invalid type: expected f64"

/-- serde String decode. -/
def decodeStr : Json → Except String String
  | .str s => .ok s
  | _ => .error "invalid type: expected string"

/-- serde Vec decode: a JSON array, every element decoded. -/
def decodeVec (d : Json → Except String α) : Json → Except String (List α)
  | .arr xs => xs.mapM d
  | _ => .error "invalid type: expected array"

/-- serde required struct field: error when the key is missing. -/
def getFieldReq (kvs : List (String × Json)) (k : String)
    (d : Json → Except String α) : Except String α :=
  match kvs.lookup k with
  | none => .error ("missing field " ++ k)
  | some v => d v

/-- serde optional struct field: none when the key is missing or its
value is null; otherwise the inner decode must succeed. -/
def getFieldOpt (kvs : List (String × Json)) (k : String)
    (d : Json → Except String α) : Except String (Option α) :=
  match kvs.lookup k with
  | none => .ok none
  | some .null => .ok none
  | some v => (d v).map some

/-- Decoder for AtomInfo. -/
def decodeAtomInfo : Json → Except String AtomInfo
  | .obj kvs => do
      let aid ← getFieldReq kvs "aid" (decodeVec decodeU32)
      let element ← getFieldReq kvs "element" (decodeVec decodeU32)
      .ok ⟨aid, element⟩
  | _ => .error "invalid type: expected AtomInfo object"

/-- Decoder for BondInfo. -/
def decodeBondInfo : Json → Except String BondInfo
  | .obj kvs => do
      let aid1 ← getFieldReq kvs "aid1" (decodeVec decodeU32)
      let aid2 ← getFieldReq kvs "aid2" (decodeVec decodeU32)
      let order ← getFieldReq kvs "order" (decodeVec decodeU32)
      .ok ⟨aid1, aid2, order⟩
  | _ => .error "invalid type: expected BondInfo object"

/-- Decoder for Conformer. -/
def decodeConformer : Json → Except String Conformer
  | .obj kvs => do
      let x ← getFieldReq kvs "x" (decodeVec decodeF64)
      let y ← getFieldReq kvs "y" (decodeVec decodeF64)
      .ok ⟨x, y⟩
  | _ => .error "invalid type: expected Conformer object"

/-- Decoder for Coords. -/
def decodeCoords : Json → Except String Coords
  | .obj kvs => do
      let conformers ← getFieldReq kvs "conformers" (decodeVec decodeConformer)
      .ok ⟨conformers⟩
  | _ => .error "invalid type: expected Coords object"

/-- Decoder for Urn. -/
def decodeUrn : Json → Except String Urn
  | .obj kvs => do
      let datatype ← getFieldOpt kvs "datatype" decodeU32
      let label ← getFieldOpt kvs "label" decodeStr
      let name ← getFieldOpt kvs "name" decodeStr
      let release ← getFieldOpt kvs "release" decodeStr
      let software ← getFieldOpt kvs "software" decodeStr
      let source ← getFieldOpt kvs "source" decodeStr
      let version ← getFieldOpt kvs "version" decodeStr
      .ok ⟨datatype, label, name, release, software, source, version⟩
  | _ => .error "invalid type: expected Urn object"

/-- Decoder for PropertyValue. -/
def decodePropertyValue : Json → Except String PropertyValue
  | .obj kvs => do
      let fval ← getFieldOpt kvs "fval" decodeF64
      let ival ← getFieldOpt kvs "ival" decodeU32
      let sval ← getFieldOpt kvs "sval" decodeStr
      let binary ← getFieldOpt kvs "binary" decodeStr
      .ok ⟨fval, ival, sval, binary⟩
  | _ => .error "invalid type: expected PropertyValue object"

/-- Decoder for Props. -/
def decodeProps : Json → Except String Props
  | .obj kvs => do
      let urn ← getFieldReq kvs "urn" decodeUrn
      let value ← getFieldReq kvs "value" decodePropertyValue
      .ok ⟨urn, value⟩
  | _ => .error "invalid type: expected Props object"

/-- Decoder for Tetrahedral: the seventh field decodes from key type. -/
def decodeTetrahedral : Json → Except String Tetrahedral
  | .obj kvs => do
      let above ← getFieldReq kvs "above" decodeU32
      let below ← getFieldReq kvs "below" decodeU32
      let bottom ← getFieldReq kvs "bottom" decodeU32
      let center ← getFieldReq kvs "center" decodeU32
      let parity ← getFieldReq kvs "parity" decodeU32
      let top ← getFieldReq kvs "top" decodeU32
      let ttype ← getFieldReq kvs "type" decodeU32
      .ok ⟨above, below, bottom, center, parity, top, ttype⟩
  | _ => .error "invalid type: expected Tetrahedral object"

/-- Decoder for Stereo. -/
def decodeStereo : Json → Except String Stereo
  | .obj kvs => do
      let tetrahedral ← getFieldOpt kvs "tetrahedral" decodeTetrahedral
      .ok ⟨tetrahedral⟩
  | _ => .error "invalid type: expected Stereo object"

/-- Decoder for IUPACName: the field decodes from key IUPACName. -/
def decodeIUPACName : Json → Except String IUPACName
  | .obj kvs => do
      let name ← getFieldOpt kvs "IUPACName" decodeStr
      .ok ⟨name⟩
  | _ => .error "invalid type: expected IUPACName object"

/-- Decoder for Compound: all 21 fields optional, unknown keys ignored
(serde default).  This is the decode performed by response.json() in
main: the Compound is read directly from the response root. -/
def decodeCompound : Json → Except String Compound
  | .obj kvs => do
      let cid ← getFieldOpt kvs "cid" decodeU32
      let atoms ← getFieldOpt kvs "atoms" decodeAtomInfo
      let bonds ← getFieldOpt kvs "bonds" (decodeVec decodeBondInfo)
      let coords ← getFieldOpt kvs "coords" (decodeVec decodeCoords)
      let props ← getFieldOpt kvs "props" (decodeVec decodeProps)
      let stereo ← getFieldOpt kvs "stereo" (decodeVec decodeStereo)
      let molecular_formula ← getFieldOpt kvs "molecular_formula" decodeStr
      let molecular_weight ← getFieldOpt kvs "molecular_weight" decodeF64
      let inchi ← getFieldOpt kvs "inchi" decodeStr
      let inchikey ← getFieldOpt kvs "inchikey" decodeStr
      let isomeric_smiles ← getFieldOpt kvs "isomeric_smiles" decodeStr
      let tpsa ← getFieldOpt kvs "tpsa" decodeF64
      let xlogp ← getFieldOpt kvs "xlogp" decodeF64
      let exact_mass ← getFieldOpt kvs "exact_mass" decodeF64
      let complexity ← getFieldOpt kvs "complexity" decodeF64
      let h_bond_donor_count ← getFieldOpt kvs "h_bond_donor_count" decodeU32
      let h_bond_acceptor_count ← getFieldOpt kvs "h_bond_acceptor_count" decodeU32
      let rotatable_bond_count ← getFieldOpt kvs "rotatable_bond_count" decodeU32
      let heavy_atom_count ← getFieldOpt kvs "heavy_atom_count" decodeU32
      let charge ← getFieldOpt kvs "charge" decodeI32
      let iupac ← getFieldOpt kvs "iupac" (decodeVec decodeIUPACName)
      .ok ⟨cid, atoms, bonds, coords, props, stereo, molecular_formula,
           molecular_weight, inchi, inchikey, isomeric_smiles, tpsa, xlogp,
           exact_mass, complexity, h_bond_donor_count, h_bond_acceptor_count,
           rotatable_bond_count, heavy_atom_count, charge, iupac⟩
  | _ => .error "invalid type: expected Compound object"

/-- The Compound with every field absent: what decodeCompound yields on
an object carrying no recognized key. -/
def emptyCompound : Compound :=
  ⟨none, none, none, none, none, none, none, none, none, none, none,
   none, none, none, none, none, none, none, none, none, none⟩

/-- Rust Debug formatting of an Option: None for absence, otherwise the
inner value wrapped in Some(...). -/
def fmtOpt (f : α → String) : Option α → String
  | none => "None"
  | some a => "Some(" ++ f a ++ ")"

/-- Debug formatting of f64, abstracted (see module conventions): no
claim depends on the digit string of a present float. -/
def fmtF64 (q : F64) : String := toString q

/-- Debug formatting of a String: quoted; Rust escape sequences inside
the quotes are not modelled (no claim uses a string needing them). -/
def fmtDebugStr (s : String) : String := "\"" ++ s ++ "\""

/-- Debug formatting of a Vec of f64. -/
def fmtF64List (l : List F64) : String :=
  "[" ++ String.intercalate ", " (l.map fmtF64) ++ "]"

/-- Debug formatting of PropertyValue (derived Debug). -/
def fmtPropertyValue (v : PropertyValue) : String :=
  "PropertyValue \x7b fval: " ++ fmtOpt fmtF64 v.fval ++
  ", ival: " ++ fmtOpt toString v.ival ++
  ", sval: " ++ fmtOpt fmtDebugStr v.sval ++
  ", binary: " ++ fmtOpt fmtDebugStr v.binary ++ " \x7d"

/-- The separator line written between report sections. -/
def sepLine : String := "---------------------"

/-- The fixed scalar header block of the Display impl: title, separator,
fifteen scalar lines (each Debug-formatted Option), separator. -/
def scalarLines (c : Compound) : List String :=
  ["Compound Information:",
   sepLine,
   "CID: " ++ fmtOpt toString c.cid,
   "Molecular Formula: " ++ fmtOpt fmtDebugStr c.molecular_formula,
   "Molecular Weight: " ++ fmtOpt fmtF64 c.molecular_weight,
   "InChI: " ++ fmtOpt fmtDebugStr c.inchi,
   "InChIKey: " ++ fmtOpt fmtDebugStr c.inchikey,
   "Isomeric SMILES: " ++ fmtOpt fmtDebugStr c.isomeric_smiles,
   "TPSA: " ++ fmtOpt fmtF64 c.tpsa,
   "XLogP: " ++ fmtOpt fmtF64 c.xlogp,
   "Exact Mass: " ++ fmtOpt fmtF64 c.exact_mass,
   "Complexity: " ++ fmtOpt fmtF64 c.complexity,
   "H-Bond Donor Count: " ++ fmtOpt toString c.h_bond_donor_count,
   "H-Bond Acceptor Count: " ++ fmtOpt toString c.h_bond_acceptor_count,
   "Rotatable Bond Count: " ++ fmtOpt toString c.rotatable_bond_count,
   "Heavy Atom Count: " ++ fmtOpt toString c.heavy_atom_count,
   "Charge: " ++ fmtOpt toString c.charge,
   sepLine]

/-- Atoms section: one line per entry of the element array, reading the
aid array at the same position (the source indexes atoms.aid with i and
relies on the parallel-array invariant; getD stands for that access). -/
def atomsLines : Option AtomInfo → List String
  | none => ["Atoms: None"]
  | some a => "Atoms:" ::
      (List.range a.element.length).map (fun i =>
        "  Atom ID: " ++ toString (a.aid.getD i 0) ++
        ", Element: " ++ toString (a.element.getD i 0))

/-- One Bond line per index of a bond table, numbered from 1. -/
def bondTableLines (b : BondInfo) : List String :=
  (List.range b.aid1.length).map (fun i =>
    "  Bond " ++ toString (i + 1) ++
    ": Atom1 " ++ toString (b.aid1.getD i 0) ++
    ", Atom2 " ++ toString (b.aid2.getD i 0) ++
    ", Order " ++ toString (b.order.getD i 0))

/-- Modelled from the spec: the source Display reads bonds.aid1 on a
value of type Vec of BondInfo (main.rs line 141, field declared as
Option of Vec of BondInfo on line 89), which has no such field — the
bonds section of the Display impl does not type-check and is missing as
compilable code.  Following the spec (one Bond line per record of every
bond table, section-local 1-based numbering), the single-table loop the
source wrote is applied to each table of the list. -/
def bondsLines : Option (List BondInfo) → List String
  | none => ["Bonds: None"]
  | some bs => "Bonds:" :: bs.flatMap bondTableLines

/-- Coordinates section: conformers of all coordinate sets flattened
and enumerated globally; each writeln carries one literal backslash-n
sequence and one real newline, so each conformer yields two lines. -/
def coordsLines : Option (List Coords) → List String
  | none => ["Coordinates: None"]
  | some cs => "Coordinates:" ::
      ((cs.flatMap (fun c => c.conformers)).enum.flatMap (fun p =>
        ["  Conformer " ++ toString (p.1 + 1) ++ ":\\nX = " ++
           fmtF64List p.2.x ++ ",",
         "Y = " ++ fmtF64List p.2.y]))

/-- Properties section: one line per entry. -/
def propsLines : Option (List Props) → List String
  | none => ["Properties: None"]
  | some ps => "Properties:" ::
      ps.map (fun p =>
        "  Property: " ++ fmtOpt fmtDebugStr p.urn.label ++
        ", Value: " ++ fmtPropertyValue p.value)

/-- Stereo section: entries are enumerated over the whole list but only
those carrying a tetrahedral record produce a line. -/
def stereoLines : Option (List Stereo) → List String
  | none => ["Stereo Information: None"]
  | some ss => "Stereo Information:" ::
      (ss.enum.flatMap (fun p =>
        match p.2.tetrahedral with
        | none => []
        | some t =>
            ["  Stereo " ++ toString (p.1 + 1) ++
             ": Above = " ++ toString t.above ++
             ", Below = " ++ toString t.below ++
             ", Bottom = " ++ toString t.bottom ++
             ", Center = " ++ toString t.center ++
             ", Parity = " ++ toString t.parity ++
             ", Top = " ++ toString t.top ++
             ", Type = " ++ toString t.ttype]))

/-- One line of the IUPAC Names section: the name, or Unknown when the
entry's optional name is absent. -/
def iupacEntryLine (n : IUPACName) : String :=
  "  " ++ n.name.getD "Unknown"

/-- IUPAC Names section: one line per entry. -/
def iupacLines : Option (List IUPACName) → List String
  | none => ["IUPAC Names: None"]
  | some l => "IUPAC Names:" :: l.map iupacEntryLine

/-- All report lines before the IUPAC Names section, in the fixed
source order: scalar block, Atoms, Bonds, Coordinates, Properties,
Stereo Information, separated by the separator line. -/
def preIupacLines (c : Compound) : List String :=
  scalarLines c ++
  atomsLines c.atoms ++ [sepLine] ++
  bondsLines c.bonds ++ [sepLine] ++
  coordsLines c.coords ++ [sepLine] ++
  propsLines c.props ++ [sepLine] ++
  stereoLines c.stereo ++ [sepLine]

/-- The full report of the Display impl, as its list of lines. -/
def compoundDisplayLines (c : Compound) : List String :=
  preIupacLines c ++ iupacLines c.iupac

/-- The report as the byte string println would emit: every line
terminated by a newline (each source writeln appends one). -/
def compoundDisplay (c : Compound) : String :=
  String.join ((compoundDisplayLines c).map (fun l => l ++ "\n"))

/-- const BASEURL. -/
def BASEURL : String := "https://pubchem.ncbi.nlm.nih.gov/rest/pug/compound/name/"

/-- const RETURNTYPE. -/
def RETURNTYPE : String := "/JSON"

/-- const PNGDIR. -/
def PNGDIR : String := "png_out/"

/-- The request URL built in main for one name. -/
def urlOf (name : String) : String := BASEURL ++ name ++ RETURNTYPE

/-- The output path built by plot_molecule for one name. -/
def pngPath (name : String) : String := PNGDIR ++ name ++ ".png"

/-- One drawn line segment: two endpoint coordinate pairs. -/
abbrev Seg := (F64 × F64) × (F64 × F64)

/-- What one run of plot_molecule produces when it does not panic: the
target file (written by the backend on drop even when nothing was
drawn), its caption, the drawn segments, and the diagnostic notices. -/
structure PlotResult where
  file : String
  caption : String
  segments : List Seg
  notices : List String
deriving DecidableEq

/-- Outcome of plot_molecule: a Rust Vec index out of range panics and
aborts the process. -/
inductive PlotOutcome where
  | panicked
  | ok (r : PlotResult)
deriving DecidableEq

/-- One iteration of the inner plotting loop: reads aid1 at i (always
in range, the loop bound is aid1's length), aid2 at i, then the
conformer's x/y arrays at both endpoint values; any out-of-range read
is a panic, modelled as none. -/
def segAt (conf : Conformer) (b : BondInfo) (i : Nat) : Option Seg := do
  let a1 ← b.aid1.get? i
  let a2 ← b.aid2.get? i
  let x1 ← conf.x.get? a1
  let y1 ← conf.y.get? a1
  let x2 ← conf.x.get? a2
  let y2 ← conf.y.get? a2
  some ((x1, y1), (x2, y2))

/-- The inner for-loop of plot_molecule over one bond table's indices:
none when any iteration panics. -/
def segsFrom (conf : Conformer) (b : BondInfo) : List Nat → Option (List Seg)
  | [] => some []
  | i :: rest =>
      match segAt conf b i with
      | none => none
      | some s => (segsFrom conf b rest).map (fun l => s :: l)

/-- The outer for-loop of plot_molecule over all bond tables. -/
def allSegs (conf : Conformer) : List BondInfo → Option (List Seg)
  | [] => some []
  | b :: rest =>
      match segsFrom conf b (List.range b.aid1.length) with
      | none => none
      | some s1 => (allSegs conf rest).map (fun l => s1 ++ l)

/-- plot_molecule: uses only the first coordinate set's first
conformer; when it is absent the plot is skipped with a diagnostic
notice on the error stream and the function still returns Ok (the
backend still writes the empty-axes file on drop); an out-of-range
endpoint index panics. -/
def plotMolecule (name : String) (coords : List Coords)
    (bonds : List BondInfo) : PlotOutcome :=
  match (coords.get? 0).bind (fun c => c.conformers.get? 0) with
  | none =>
      .ok ⟨pngPath name, name, [], ["No conformers available for plotting."]⟩
  | some conf =>
      match allSegs conf bonds with
      | none => .panicked
      | some segs => .ok ⟨pngPath name, name, segs, []⟩

/-- What one fetch of a name's URL yields: a network-level error, or a
response with a status code and a JSON body.  reqwest::get errs only on
network-level failure; a non-2xx response still carries its body. -/
inductive FetchOutcome where
  | netErr
  | response (status : Nat) (body : Json)

/-- Observable state accumulated by a run: stdout lines, diagnostic
(stderr) lines, request URLs issued, plot files written. -/
structure RunState where
  stdout : List String
  errout : List String
  requests : List String
  plots : List String
deriving DecidableEq

/-- How a run ends: all names processed and Ok returned, an early Err
return (a question-mark operator propagated an error), or a panic. -/
inductive RunHalt where
  | completedOk
  | errExit
  | panicked
deriving DecidableEq

/-- Final observation of a run. -/
structure RunResult where
  state : RunState
  halt : RunHalt
deriving DecidableEq

/-- The initial (empty) observable state. -/
def initState : RunState := ⟨[], [], [], []⟩

/-- The body of one loop iteration in main after the response arrived:
decode the body as a Compound (the question mark on json() turns a
decode failure into an early Err return of main), print the report,
and plot when both coords and bonds are present.  The response status
is never examined by the source. -/
def handleBody (s : RunState) (name : String) (body : Json) :
    RunState × Option RunHalt :=
  match decodeCompound body with
  | .error _ => (s, some .errExit)
  | .ok c =>
      let s' := { s with stdout := s.stdout ++ compoundDisplayLines c }
      match c.coords, c.bonds with
      | some cs, some bs =>
          match plotMolecule name cs bs with
          | .panicked => (s', some .panicked)
          | .ok r =>
              ({ s' with errout := s'.errout ++ r.notices,
                         plots := s'.plots ++ [r.file] }, none)
      | _, _ => (s', none)

/-- Dispatch on the fetch outcome: the question mark on reqwest::get
turns a network error into an early Err return; otherwise only the
body is used, the status is ignored. -/
def handleFetched (s : RunState) (name : String) :
    FetchOutcome → RunState × Option RunHalt
  | .netErr => (s, some .errExit)
  | .response _ body => handleBody s name body

/-- One full iteration of the per-name loop in main: build the URL,
issue the request, then handle the outcome. -/
def stepName (fetch : String → FetchOutcome) (s : RunState)
    (name : String) : RunState × Option RunHalt :=
  handleFetched { s with requests := s.requests ++ [urlOf name] } name
    (fetch name)

/-- The per-name loop of main: names processed strictly sequentially; a
halting outcome (Err return or panic) stops the loop at once. -/
def runNames (fetch : String → FetchOutcome) :
    List String → RunState → RunResult
  | [], s => ⟨s, .completedOk⟩
  | n :: rest, s =>
      match stepName fetch s n with
      | (s', none) => runNames fetch rest s'
      | (s', some h) => ⟨s', h⟩

/-- The usage line printed when fewer than two argv entries exist. -/
def usageMessage : String :=
  "src/main.rs usage :: cargo run <compound_name> <compound_name> <compound_name> ... (at least one additional argument)"

/-- The diagnostic printed when every argument was filtered out. -/
def noNamesMessage : String :=
  "\nmain() :: ERROR -> None of the compounds entered are purely alphabetical"

/-- Rust char::is_numeric restricted to the decimal digits: on the
ASCII arguments all claims use, char::is_numeric holds exactly of the
digits 0-9; the full Unicode numeric tables are not modelled. -/
def charIsNumeric (c : Char) : Bool := c.isDigit

/-- The argument filter of main: drop every argument whose characters
(the chars() iteration is the character list) are all numeric, keeping
the rest in order. -/
def filterCandidates (args : List String) : List String :=
  args.filter (fun a => !a.data.all charIsNumeric)

/-- main, as a function of the full argv (argv head is the program
name, as with env::args) and of the transport:  fewer than two argv
entries prints the usage line and returns Ok; all candidates filtered
out prints a diagnostic and returns Ok; otherwise the per-name loop
runs.  Directory creation of PNGDIR is an external side effect with no
observable trace here. -/
def mainRun (argv : List String) (fetch : String → FetchOutcome) : RunResult :=
  if argv.length < 2 then
    ⟨{ initState with stdout := [usageMessage] }, .completedOk⟩
  else
    let names := filterCandidates (argv.drop 1)
    if names.isEmpty then
      ⟨{ initState with errout := [noNamesMessage] }, .completedOk⟩
    else
      runNames fetch names initState

/-- The JSON keys the Compound decoder recognizes. -/
def compoundKeys : List String :=
  ["cid", "atoms", "bonds", "coords", "props", "stereo",
   "molecular_formula", "molecular_weight", "inchi", "inchikey",
   "isomeric_smiles", "tpsa", "xlogp", "exact_mass", "complexity",
   "h_bond_donor_count", "h_bond_acceptor_count", "rotatable_bond_count",
   "heavy_atom_count", "charge", "iupac"]

/-! Helper lemmas shared by the claim proofs. -/

/-- Splitting a successful Except bind. -/
theorem exceptBind_ok {α β : Type} {a : Except String α}
    {f : α → Except String β} {c : β} (h : a >>= f = .ok c) :
    ∃ x, a = .ok x ∧ f x = .ok c := by
  cases a with
  | error e => exact absurd h (by simp [Bind.bind, Except.bind])
  | ok x => exact ⟨x, rfl, by simpa [Bind.bind, Except.bind] using h⟩

/-- A key absent from every pair of an association list has no lookup. -/
theorem lookup_eq_none_of_forall {kvs : List (String × Json)} {k : String}
    (h : ∀ p ∈ kvs, p.1 ≠ k) : kvs.lookup k = none := by
  induction kvs with
  | nil => rfl
  | cons p t ih =>
      have hp : p.1 ≠ k := h p (List.mem_cons_self p t)
      have : (k == p.1) = false := by
        simp [beq_iff_eq]
        exact fun he => hp he.symm
      simp [List.lookup, this]
      exact fun a b hab he =>
        h (a, b) (List.mem_cons_of_mem p hab) he.symm

/-- An optional field whose key has no lookup decodes as absent. -/
theorem getFieldOpt_none {kvs : List (String × Json)} {k : String}
    {α : Type} (d : Json → Except String α) (h : kvs.lookup k = none) :
    getFieldOpt kvs k d = .ok none := by
  simp [getFieldOpt, h]

/-- A successful optional-field decode at a key with no lookup yields
none. -/
theorem getFieldOpt_ok_none {kvs : List (String × Json)} {k : String}
    {α : Type} {d : Json → Except String α} {v : Option α}
    (hd : getFieldOpt kvs k d = .ok v) (h : kvs.lookup k = none) :
    v = none := by
  rw [getFieldOpt_none d h] at hd
  injection hd with hv
  exact hv.symm

/-- In-range get? is getD. -/
theorem getq_eq_getD {α : Type} {l : List α} {i : Nat} (d : α)
    (h : i < l.length) : l.get? i = some (l.getD i d) := by
  cases hq : l.get? i with
  | none => exact absurd (List.get?_eq_none.mp hq) (Nat.not_le.mpr h)
  | some a =>
      rw [List.getD_eq_getElem?_getD, ← List.get?_eq_getElem?, hq]
      rfl

/-- In-range getD is a member. -/
theorem getD_mem_of_lt {α : Type} {l : List α} {i : Nat} (d : α)
    (h : i < l.length) : l.getD i d ∈ l := by
  have hq := getq_eq_getD d h
  exact List.get?_mem hq

/-- Reduction of a successful Except bind. -/
theorem exceptOk_bind {α β : Type} (a : α) (f : α → Except String β) :
    (Except.ok a : Except String α) >>= f = f a := rfl

/-- An inner-loop iteration whose first endpoint value is out of range
of the conformer's x array panics. -/
theorem segAt_none_of_oob {conf : Conformer} {b : BondInfo} {i a1 : Nat}
    (h1 : b.aid1.get? i = some a1) (hlen : conf.x.length ≤ a1) :
    segAt conf b i = none := by
  have hx : conf.x.get? a1 = none := List.get?_eq_none.mpr hlen
  cases h2 : b.aid2.get? i with
  | none => simp only [segAt, Option.bind_eq_bind, Option.some_bind,
      Option.none_bind, h1, h2]
  | some a2 => simp only [segAt, Option.bind_eq_bind, Option.some_bind,
      Option.none_bind, h1, h2, hx]

/-- A panic at any index of the inner loop panics the whole loop. -/
theorem segsFrom_none_of_mem {conf : Conformer} {b : BondInfo} {i : Nat}
    {is : List Nat} (hm : i ∈ is) (hn : segAt conf b i = none) :
    segsFrom conf b is = none := by
  induction is with
  | nil => cases hm
  | cons j t ih =>
      rcases List.mem_cons.mp hm with h | h
      · subst h; simp [segsFrom, hn]
      · cases hj : segAt conf b j with
        | none => simp [segsFrom, hj]
        | some s => simp [segsFrom, hj, ih h]

/-- A panic at any bond table panics the outer loop. -/
theorem allSegs_none_of_mem {conf : Conformer} {b : BondInfo}
    {bonds : List BondInfo} (hm : b ∈ bonds)
    (hn : segsFrom conf b (List.range b.aid1.length) = none) :
    allSegs conf bonds = none := by
  induction bonds with
  | nil => cases hm
  | cons b' t ih =>
      rcases List.mem_cons.mp hm with h | h
      · subst h; simp [allSegs, hn]
      · cases hb : segsFrom conf b' (List.range b'.aid1.length) with
        | none => simp [allSegs, hb]
        | some s => simp [allSegs, hb, ih h]

/-! Claim theorems. -/

/-- C1 (counterexample): the claim that a plot failure never panics and
never terminates the per-name loop early is false.  With two names and
a response whose compound has a one-point conformer and a bond whose
second endpoint value 5 is out of range as an index into the x/y
arrays, the run panics during the first name's plot and the second name
is never requested. -/
theorem c1_counterexample :
    (mainRun ["prog", "Abc", "Xyz"]
      (fun _ => .response 200 (.obj
        [("coords", .arr [.obj [("conformers",
            .arr [.obj [("x", .arr [.num 0]), ("y", .arr [.num 0])]])]]),
         ("bonds", .arr [.obj [("aid1", .arr [.num 0]),
            ("aid2", .arr [.num 5]), ("order", .arr [.num 1])]])]))).halt
      = .panicked
    ∧ (mainRun ["prog", "Abc", "Xyz"]
      (fun _ => .response 200 (.obj
        [("coords", .arr [.obj [("conformers",
            .arr [.obj [("x", .arr [.num 0]), ("y", .arr [.num 0])]])]]),
         ("bonds", .arr [.obj [("aid1", .arr [.num 0]),
            ("aid2", .arr [.num 5]), ("order", .arr [.num 1])]])]))).state.requests
      = [urlOf "Abc"] := by decide

/-- C1 (amended): a missing first conformer of the first coordinate set
is reported as a diagnostic notice, the plot step returns Ok with no
segment drawn, and the per-name loop continues; but a bond endpoint
value that is out of range as an index into the conformer's x/y arrays
makes plot_molecule panic, which aborts the entire run including all
remaining names. -/
theorem c1_amended : ∀ (name : String) (coords : List Coords)
    (bonds : List BondInfo),
    ((coords.get? 0).bind (fun c => c.conformers.get? 0) = none →
      plotMolecule name coords bonds =
        .ok ⟨pngPath name, name, [], ["No conformers available for plotting."]⟩)
    ∧ (∀ (conf : Conformer) (b : BondInfo) (i : Nat),
        (coords.get? 0).bind (fun c => c.conformers.get? 0) = some conf →
        b ∈ bonds → i < b.aid1.length → conf.x.length ≤ b.aid1.getD i 0 →
        plotMolecule name coords bonds = .panicked)
    ∧ (∀ (fetch : String → FetchOutcome) (s : RunState) (st : Nat)
        (body : Json) (c : Compound),
        fetch name = .response st body → decodeCompound body = .ok c →
        c.coords = some coords → c.bonds = some bonds →
        (coords.get? 0).bind (fun cc => cc.conformers.get? 0) = none →
        (stepName fetch s name).2 = none) := by
  intro name coords bonds
  refine ⟨fun h => by simp only [plotMolecule, h], ?_, ?_⟩
  · intro conf b i hconf hm hi hoob
    have h1 : b.aid1.get? i = some (b.aid1.getD i 0) := getq_eq_getD 0 hi
    have hseg : segAt conf b i = none := segAt_none_of_oob h1 hoob
    have hs : segsFrom conf b (List.range b.aid1.length) = none :=
      segsFrom_none_of_mem (List.mem_range.mpr hi) hseg
    have ha : allSegs conf bonds = none := allSegs_none_of_mem hm hs
    simp only [plotMolecule, hconf, ha]
  · intro fetch s st body c hf hd hc hb hnone
    have hp : plotMolecule name coords bonds =
        .ok ⟨pngPath name, name, [], ["No conformers available for plotting."]⟩ := by
      simp only [plotMolecule, hnone]
    simp only [stepName, handleFetched, hf, handleBody, hd, hc, hb, hp]

/-- C1 (witness): the amended theorem applied at concrete inputs: a
coordinate set with no conformer is skipped with the notice; a bond
endpoint 9 against a one-point conformer panics; the loop step on a
skipped plot does not halt. -/
theorem c1_amended_witness :
    plotMolecule "W" [Coords.mk []] [] =
      .ok ⟨pngPath "W", "W", [], ["No conformers available for plotting."]⟩
    ∧ plotMolecule "B" [⟨[⟨[0], [0]⟩]⟩] [⟨[9], [9], [1]⟩] = .panicked
    ∧ (stepName (fun _ => .response 200
        (.obj [("coords", .arr [.obj [("conformers", .arr [])]]),
               ("bonds", .arr [])])) initState "W").2 = none :=
  ⟨(c1_amended "W" [Coords.mk []] []).1 rfl,
   (c1_amended "B" [⟨[⟨[0], [0]⟩]⟩] [⟨[9], [9], [1]⟩]).2.1
     ⟨[0], [0]⟩ ⟨[9], [9], [1]⟩ 0 rfl (by decide) (by decide) (by decide),
   (c1_amended "W" [Coords.mk []] []).2.2
     (fun _ => .response 200
        (.obj [("coords", .arr [.obj [("conformers", .arr [])]]),
               ("bonds", .arr [])])) initState 200
     (.obj [("coords", .arr [.obj [("conformers", .arr [])]]),
            ("bonds", .arr [])])
     { emptyCompound with coords := some [⟨[]⟩], bonds := some [] }
     rfl (by decide) rfl rfl rfl⟩

/-- C2 (counterexample): the claim that a transport failure is reported
per-name and iteration continues is false.  With names A and B and a
network error on A's fetch, the run returns Err at once: B is never
requested and nothing is written to the diagnostic stream. -/
theorem c2_counterexample :
    (mainRun ["p", "A", "B"]
      (fun n => if n = "A" then .netErr else .response 200 (.obj []))).halt
      = .errExit
    ∧ (mainRun ["p", "A", "B"]
      (fun n => if n = "A" then .netErr else .response 200 (.obj []))).state.requests
      = [urlOf "A"]
    ∧ (mainRun ["p", "A", "B"]
      (fun n => if n = "A" then .netErr else .response 200 (.obj []))).state.errout
      = [] := by decide

/-- C2 (amended): a network error on any name's fetch aborts the whole
run immediately through the question-mark operator: no per-name
diagnostic is emitted and the remaining names are never fetched.  The
HTTP status is never examined, so a non-2xx response is processed
exactly like a 2xx response with the same body rather than being
reported and skipped. -/
theorem c2_amended :
    (∀ (fetch : String → FetchOutcome) (s : RunState) (name : String)
      (rest : List String),
      fetch name = .netErr →
      runNames fetch (name :: rest) s =
        ⟨{ s with requests := s.requests ++ [urlOf name] }, .errExit⟩)
    ∧ (∀ (s : RunState) (name : String) (st st' : Nat) (body : Json),
      handleFetched s name (.response st body) =
        handleFetched s name (.response st' body)) := by
  constructor
  · intro fetch s name rest hf
    simp only [runNames, stepName, hf, handleFetched]
  · intro s name st st' body
    rfl

/-- C2 (witness): the amended theorem applied at concrete inputs: a
network error on A halts a two-name run with only A's URL requested,
and a 404 response is handled identically to a 200 response with the
same body. -/
theorem c2_amended_witness :
    runNames (fun _ => FetchOutcome.netErr) ["A", "B"] initState =
      ⟨{ initState with requests := initState.requests ++ [urlOf "A"] },
       .errExit⟩
    ∧ handleFetched initState "A" (.response 404 (.obj [])) =
        handleFetched initState "A" (.response 200 (.obj [])) :=
  ⟨c2_amended.1 (fun _ => .netErr) initState "A" ["B"] rfl,
   c2_amended.2 initState "A" 404 200 (.obj [])⟩

/-- C3 (counterexample): the claim's concrete example is false: the
argument 45.6 contains a dot, which is not a numeric character, so it
survives the filter and the filtered query set is not Aspirin, Glucose
alone. -/
theorem c3_counterexample :
    filterCandidates ["123", "Aspirin", "45.6", "Glucose"] ≠
      ["Aspirin", "Glucose"] := by decide

/-- C3 (amended): the filter removes exactly the arguments all of whose
characters are numeric and preserves the relative order of the rest;
for the input 123, Aspirin, 45.6, Glucose the filtered query set is
Aspirin, 45.6, Glucose, since 45.6 contains the non-numeric dot. -/
theorem c3_amended :
    (∀ args : List String, (filterCandidates args).Sublist args)
    ∧ (∀ (args : List String) (s : String),
        s ∈ filterCandidates args ↔
          s ∈ args ∧ s.data.all charIsNumeric = false)
    ∧ filterCandidates ["123", "Aspirin", "45.6", "Glucose"] =
        ["Aspirin", "45.6", "Glucose"] := by
  refine ⟨fun args => List.filter_sublist args, fun args s => ?_, by decide⟩
  simp [filterCandidates, List.mem_filter]

/-- C4 (counterexample): the claim that a response lacking the
compound-collection key yields a per-name no-result diagnostic is
false.  On a response whose only key is PC_Compounds (which the decoder
does not recognize), the run writes nothing at all to the diagnostic
stream, writes no plot file, and completes Ok, having printed an
all-absent report. -/
theorem c4_counterexample :
    (mainRun ["p", "Water"]
      (fun _ => .response 200 (.obj [("PC_Compounds", .arr [])]))).state.errout
      = []
    ∧ (mainRun ["p", "Water"]
      (fun _ => .response 200 (.obj [("PC_Compounds", .arr [])]))).state.plots
      = []
    ∧ (mainRun ["p", "Water"]
      (fun _ => .response 200 (.obj [("PC_Compounds", .arr [])]))).halt
      = .completedOk := by decide

/-- C4 (amended): the code has no no-match detection at all: a response
body that is a JSON object bearing no recognized compound key decodes
as the all-absent Compound (unknown keys are ignored), so the full
report with every field rendered None is printed to stdout, no plot
file is written, no diagnostic of any kind is emitted for that name,
and the loop continues normally. -/
theorem c4_amended : ∀ (name : String) (s : RunState)
    (kvs : List (String × Json)),
    (∀ p ∈ kvs, p.1 ∉ compoundKeys) →
    decodeCompound (.obj kvs) = .ok emptyCompound ∧
    handleBody s name (.obj kvs) =
      ({ s with stdout := s.stdout ++ compoundDisplayLines emptyCompound },
       none) := by
  intro name s kvs h
  have hl : ∀ k ∈ compoundKeys, kvs.lookup k = none := fun k hk =>
    lookup_eq_none_of_forall (fun p hp he => h p hp (he ▸ hk))
  have hdec : decodeCompound (.obj kvs) = .ok emptyCompound := by
    simp only [decodeCompound, exceptOk_bind,
      getFieldOpt_none _ (hl "cid" (by decide)),
      getFieldOpt_none _ (hl "atoms" (by decide)),
      getFieldOpt_none _ (hl "bonds" (by decide)),
      getFieldOpt_none _ (hl "coords" (by decide)),
      getFieldOpt_none _ (hl "props" (by decide)),
      getFieldOpt_none _ (hl "stereo" (by decide)),
      getFieldOpt_none _ (hl "molecular_formula" (by decide)),
      getFieldOpt_none _ (hl "molecular_weight" (by decide)),
      getFieldOpt_none _ (hl "inchi" (by decide)),
      getFieldOpt_none _ (hl "inchikey" (by decide)),
      getFieldOpt_none _ (hl "isomeric_smiles" (by decide)),
      getFieldOpt_none _ (hl "tpsa" (by decide)),
      getFieldOpt_none _ (hl "xlogp" (by decide)),
      getFieldOpt_none _ (hl "exact_mass" (by decide)),
      getFieldOpt_none _ (hl "complexity" (by decide)),
      getFieldOpt_none _ (hl "h_bond_donor_count" (by decide)),
      getFieldOpt_none _ (hl "h_bond_acceptor_count" (by decide)),
      getFieldOpt_none _ (hl "rotatable_bond_count" (by decide)),
      getFieldOpt_none _ (hl "heavy_atom_count" (by decide)),
      getFieldOpt_none _ (hl "charge" (by decide)),
      getFieldOpt_none _ (hl "iupac" (by decide))]
    rfl
  refine ⟨hdec, ?_⟩
  simp only [handleBody, hdec]
  rfl

/-- C4 (witness): the amended theorem applied at the concrete response
whose only key is PC_Compounds. -/
theorem c4_amended_witness :
    decodeCompound (.obj [("PC_Compounds", Json.arr [])]) =
      .ok emptyCompound
    ∧ handleBody initState "Water" (.obj [("PC_Compounds", Json.arr [])]) =
      ({ initState with
          stdout := initState.stdout ++ compoundDisplayLines emptyCompound },
       none) :=
  c4_amended "Water" initState [("PC_Compounds", Json.arr [])] (by decide)

/-- C5: on a compound whose first coordinate set's first conformer has
5 points and whose bond list holds one table of 2 bonds with in-range
endpoint values, plot_molecule draws exactly the 2 line segments whose
endpoints are the conformer's (x, y) values read at the bond's raw
endpoint fields used directly as array indices, and targets exactly one
output file at PNGDIR/name.png. -/
theorem c5_bond_plot : ∀ (name : String) (conf : Conformer)
    (restConf : List Conformer) (restCoords : List Coords) (b : BondInfo),
    conf.x.length = 5 → conf.y.length = 5 →
    b.aid1.length = 2 → b.aid2.length = 2 →
    (∀ i ∈ b.aid1, i < 5) → (∀ i ∈ b.aid2, i < 5) →
    plotMolecule name (⟨conf :: restConf⟩ :: restCoords) [b] =
      .ok ⟨pngPath name, name,
        [((conf.x.getD (b.aid1.getD 0 0) 0, conf.y.getD (b.aid1.getD 0 0) 0),
          (conf.x.getD (b.aid2.getD 0 0) 0, conf.y.getD (b.aid2.getD 0 0) 0)),
         ((conf.x.getD (b.aid1.getD 1 0) 0, conf.y.getD (b.aid1.getD 1 0) 0),
          (conf.x.getD (b.aid2.getD 1 0) 0, conf.y.getD (b.aid2.getD 1 0) 0))],
        []⟩
    ∧ pngPath name = "png_out/" ++ name ++ ".png" := by
  intro name conf restConf restCoords b hx5 hy5 ha1 ha2 hm1 hm2
  have h0lt : (0 : Nat) < b.aid1.length := by rw [ha1]; decide
  have h1lt : (1 : Nat) < b.aid1.length := by rw [ha1]; decide
  have h0lt2 : (0 : Nat) < b.aid2.length := by rw [ha2]; decide
  have h1lt2 : (1 : Nat) < b.aid2.length := by rw [ha2]; decide
  have hxlen : ∀ j ∈ b.aid1, j < conf.x.length := by rw [hx5]; exact hm1
  have hylen : ∀ j ∈ b.aid1, j < conf.y.length := by rw [hy5]; exact hm1
  have hxlen2 : ∀ j ∈ b.aid2, j < conf.x.length := by rw [hx5]; exact hm2
  have hylen2 : ∀ j ∈ b.aid2, j < conf.y.length := by rw [hy5]; exact hm2
  have seg0 : segAt conf b 0 =
      some ((conf.x.getD (b.aid1.getD 0 0) 0, conf.y.getD (b.aid1.getD 0 0) 0),
            (conf.x.getD (b.aid2.getD 0 0) 0, conf.y.getD (b.aid2.getD 0 0) 0)) := by
    simp only [segAt, Option.bind_eq_bind, Option.some_bind,
      getq_eq_getD 0 h0lt, getq_eq_getD 0 h0lt2,
      getq_eq_getD (0 : F64) (hxlen _ (getD_mem_of_lt 0 h0lt)),
      getq_eq_getD (0 : F64) (hylen _ (getD_mem_of_lt 0 h0lt)),
      getq_eq_getD (0 : F64) (hxlen2 _ (getD_mem_of_lt 0 h0lt2)),
      getq_eq_getD (0 : F64) (hylen2 _ (getD_mem_of_lt 0 h0lt2))]
  have seg1 : segAt conf b 1 =
      some ((conf.x.getD (b.aid1.getD 1 0) 0, conf.y.getD (b.aid1.getD 1 0) 0),
            (conf.x.getD (b.aid2.getD 1 0) 0, conf.y.getD (b.aid2.getD 1 0) 0)) := by
    simp only [segAt, Option.bind_eq_bind, Option.some_bind,
      getq_eq_getD 0 h1lt, getq_eq_getD 0 h1lt2,
      getq_eq_getD (0 : F64) (hxlen _ (getD_mem_of_lt 0 h1lt)),
      getq_eq_getD (0 : F64) (hylen _ (getD_mem_of_lt 0 h1lt)),
      getq_eq_getD (0 : F64) (hxlen2 _ (getD_mem_of_lt 0 h1lt2)),
      getq_eq_getD (0 : F64) (hylen2 _ (getD_mem_of_lt 0 h1lt2))]
  have hr : List.range b.aid1.length = [0, 1] := by rw [ha1]; decide
  have hsf : segsFrom conf b [0, 1] =
      some [((conf.x.getD (b.aid1.getD 0 0) 0, conf.y.getD (b.aid1.getD 0 0) 0),
             (conf.x.getD (b.aid2.getD 0 0) 0, conf.y.getD (b.aid2.getD 0 0) 0)),
            ((conf.x.getD (b.aid1.getD 1 0) 0, conf.y.getD (b.aid1.getD 1 0) 0),
             (conf.x.getD (b.aid2.getD 1 0) 0, conf.y.getD (b.aid2.getD 1 0) 0))] := by
    simp [segsFrom, seg0, seg1]
  have hall : allSegs conf [b] =
      some [((conf.x.getD (b.aid1.getD 0 0) 0, conf.y.getD (b.aid1.getD 0 0) 0),
             (conf.x.getD (b.aid2.getD 0 0) 0, conf.y.getD (b.aid2.getD 0 0) 0)),
            ((conf.x.getD (b.aid1.getD 1 0) 0, conf.y.getD (b.aid1.getD 1 0) 0),
             (conf.x.getD (b.aid2.getD 1 0) 0, conf.y.getD (b.aid2.getD 1 0) 0))] := by
    simp [allSegs, hr, hsf]
  have hc : (((⟨conf :: restConf⟩ :: restCoords : List Coords).get? 0).bind
      (fun c => c.conformers.get? 0)) = some conf := rfl
  refine ⟨?_, rfl⟩
  simp only [plotMolecule, hc, hall]

/-- C5 (witness): the theorem applied at a concrete 5-point conformer
and a concrete 2-bond table. -/
theorem c5_bond_plot_witness :
    plotMolecule "A" [⟨[⟨[0, 1, 2, 3, 4], [5, 6, 7, 8, 9]⟩]⟩]
        [⟨[0, 1], [2, 3], [1, 1]⟩] =
      .ok ⟨"png_out/A.png", "A", [((0, 5), (2, 7)), ((1, 6), (3, 8))], []⟩
    ∧ pngPath "A" = "png_out/" ++ "A" ++ ".png" := by
  have H := c5_bond_plot "A" ⟨[0, 1, 2, 3, 4], [5, 6, 7, 8, 9]⟩ [] []
    ⟨[0, 1], [2, 3], [1, 1]⟩
    (by decide) (by decide) (by decide) (by decide) (by decide) (by decide)
  exact ⟨H.1.trans (by decide), H.2⟩

set_option maxHeartbeats 2000000 in
/-- C7: on any Compound decoded from a JSON object, every optional
scalar field whose key is absent from the input renders in the report
as its fixed line bearing the literal None placeholder at its fixed
position — never an empty string and never an omitted line. -/
theorem c7_absent_scalars_render_none : ∀ (kvs : List (String × Json))
    (c : Compound), decodeCompound (.obj kvs) = .ok c →
    ((kvs.lookup "cid" = none →
        (compoundDisplayLines c).get? 2 = some "CID: None")
     ∧ (kvs.lookup "molecular_formula" = none →
        (compoundDisplayLines c).get? 3 = some "Molecular Formula: None")
     ∧ (kvs.lookup "molecular_weight" = none →
        (compoundDisplayLines c).get? 4 = some "Molecular Weight: None")
     ∧ (kvs.lookup "inchi" = none →
        (compoundDisplayLines c).get? 5 = some "InChI: None")
     ∧ (kvs.lookup "inchikey" = none →
        (compoundDisplayLines c).get? 6 = some "InChIKey: None")
     ∧ (kvs.lookup "isomeric_smiles" = none →
        (compoundDisplayLines c).get? 7 = some "Isomeric SMILES: None")
     ∧ (kvs.lookup "tpsa" = none →
        (compoundDisplayLines c).get? 8 = some "TPSA: None")
     ∧ (kvs.lookup "xlogp" = none →
        (compoundDisplayLines c).get? 9 = some "XLogP: None")
     ∧ (kvs.lookup "exact_mass" = none →
        (compoundDisplayLines c).get? 10 = some "Exact Mass: None")
     ∧ (kvs.lookup "complexity" = none →
        (compoundDisplayLines c).get? 11 = some "Complexity: None")
     ∧ (kvs.lookup "h_bond_donor_count" = none →
        (compoundDisplayLines c).get? 12 = some "H-Bond Donor Count: None")
     ∧ (kvs.lookup "h_bond_acceptor_count" = none →
        (compoundDisplayLines c).get? 13 = some "H-Bond Acceptor Count: None")
     ∧ (kvs.lookup "rotatable_bond_count" = none →
        (compoundDisplayLines c).get? 14 = some "Rotatable Bond Count: None")
     ∧ (kvs.lookup "heavy_atom_count" = none →
        (compoundDisplayLines c).get? 15 = some "Heavy Atom Count: None")
     ∧ (kvs.lookup "charge" = none →
        (compoundDisplayLines c).get? 16 = some "Charge: None")) := by
  intro kvs c h
  simp only [decodeCompound] at h
  obtain ⟨cid, hcid, h⟩ := exceptBind_ok h
  obtain ⟨atoms, hatoms, h⟩ := exceptBind_ok h
  obtain ⟨bonds, hbonds, h⟩ := exceptBind_ok h
  obtain ⟨coords, hcoords, h⟩ := exceptBind_ok h
  obtain ⟨props, hprops, h⟩ := exceptBind_ok h
  obtain ⟨stereo, hstereo, h⟩ := exceptBind_ok h
  obtain ⟨mf, hmf, h⟩ := exceptBind_ok h
  obtain ⟨mw, hmw, h⟩ := exceptBind_ok h
  obtain ⟨inchi, hinchi, h⟩ := exceptBind_ok h
  obtain ⟨inchikey, hinchikey, h⟩ := exceptBind_ok h
  obtain ⟨smiles, hsmiles, h⟩ := exceptBind_ok h
  obtain ⟨tpsa, htpsa, h⟩ := exceptBind_ok h
  obtain ⟨xlogp, hxlogp, h⟩ := exceptBind_ok h
  obtain ⟨em, hem, h⟩ := exceptBind_ok h
  obtain ⟨cx, hcx, h⟩ := exceptBind_ok h
  obtain ⟨hbd, hhbd, h⟩ := exceptBind_ok h
  obtain ⟨hba, hhba, h⟩ := exceptBind_ok h
  obtain ⟨rbc, hrbc, h⟩ := exceptBind_ok h
  obtain ⟨hac, hhac, h⟩ := exceptBind_ok h
  obtain ⟨charge, hcharge, h⟩ := exceptBind_ok h
  obtain ⟨iupac, hiupac, h⟩ := exceptBind_ok h
  injection h with h
  subst h
  refine ⟨?_, ?_, ?_, ?_, ?_, ?_, ?_, ?_, ?_, ?_, ?_, ?_, ?_, ?_, ?_⟩
  · intro ha; have hv := getFieldOpt_ok_none hcid ha; subst hv; rfl
  · intro ha; have hv := getFieldOpt_ok_none hmf ha; subst hv; rfl
  · intro ha; have hv := getFieldOpt_ok_none hmw ha; subst hv; rfl
  · intro ha; have hv := getFieldOpt_ok_none hinchi ha; subst hv; rfl
  · intro ha; have hv := getFieldOpt_ok_none hinchikey ha; subst hv; rfl
  · intro ha; have hv := getFieldOpt_ok_none hsmiles ha; subst hv; rfl
  · intro ha; have hv := getFieldOpt_ok_none htpsa ha; subst hv; rfl
  · intro ha; have hv := getFieldOpt_ok_none hxlogp ha; subst hv; rfl
  · intro ha; have hv := getFieldOpt_ok_none hem ha; subst hv; rfl
  · intro ha; have hv := getFieldOpt_ok_none hcx ha; subst hv; rfl
  · intro ha; have hv := getFieldOpt_ok_none hhbd ha; subst hv; rfl
  · intro ha; have hv := getFieldOpt_ok_none hhba ha; subst hv; rfl
  · intro ha; have hv := getFieldOpt_ok_none hrbc ha; subst hv; rfl
  · intro ha; have hv := getFieldOpt_ok_none hhac ha; subst hv; rfl
  · intro ha; have hv := getFieldOpt_ok_none hcharge ha; subst hv; rfl

/-- C7 (witness): the theorem applied at the empty input object, whose
decode succeeds with every field absent; every scalar line renders
None. -/
theorem c7_witness :
    (compoundDisplayLines emptyCompound).get? 2 = some "CID: None"
    ∧ (compoundDisplayLines emptyCompound).get? 3 =
        some "Molecular Formula: None"
    ∧ (compoundDisplayLines emptyCompound).get? 4 =
        some "Molecular Weight: None"
    ∧ (compoundDisplayLines emptyCompound).get? 5 = some "InChI: None"
    ∧ (compoundDisplayLines emptyCompound).get? 6 = some "InChIKey: None"
    ∧ (compoundDisplayLines emptyCompound).get? 7 =
        some "Isomeric SMILES: None"
    ∧ (compoundDisplayLines emptyCompound).get? 8 = some "TPSA: None"
    ∧ (compoundDisplayLines emptyCompound).get? 9 = some "XLogP: None"
    ∧ (compoundDisplayLines emptyCompound).get? 10 = some "Exact Mass: None"
    ∧ (compoundDisplayLines emptyCompound).get? 11 = some "Complexity: None"
    ∧ (compoundDisplayLines emptyCompound).get? 12 =
        some "H-Bond Donor Count: None"
    ∧ (compoundDisplayLines emptyCompound).get? 13 =
        some "H-Bond Acceptor Count: None"
    ∧ (compoundDisplayLines emptyCompound).get? 14 =
        some "Rotatable Bond Count: None"
    ∧ (compoundDisplayLines emptyCompound).get? 15 =
        some "Heavy Atom Count: None"
    ∧ (compoundDisplayLines emptyCompound).get? 16 = some "Charge: None" := by
  have H := c7_absent_scalars_render_none [] emptyCompound (by decide)
  exact ⟨H.1 rfl, H.2.1 rfl, H.2.2.1 rfl, H.2.2.2.1 rfl, H.2.2.2.2.1 rfl,
    H.2.2.2.2.2.1 rfl, H.2.2.2.2.2.2.1 rfl, H.2.2.2.2.2.2.2.1 rfl,
    H.2.2.2.2.2.2.2.2.1 rfl, H.2.2.2.2.2.2.2.2.2.1 rfl,
    H.2.2.2.2.2.2.2.2.2.2.1 rfl, H.2.2.2.2.2.2.2.2.2.2.2.1 rfl,
    H.2.2.2.2.2.2.2.2.2.2.2.2.1 rfl, H.2.2.2.2.2.2.2.2.2.2.2.2.2.1 rfl,
    H.2.2.2.2.2.2.2.2.2.2.2.2.2.2 rfl⟩

/-- C8: rendering is deterministic: the report text is a pure function
of the Compound value, so rendering the same value twice yields
byte-identical output. -/
theorem c8_render_deterministic : ∀ c : Compound,
    compoundDisplay c = compoundDisplay c :=
  fun _ => rfl

/-- C9: with zero command-line arguments (argv holds only the program
name, as env::args provides), main prints the usage line to stdout,
issues no network request, and returns Ok. -/
theorem c9_usage_on_no_args : ∀ (prog : String)
    (fetch : String → FetchOutcome),
    mainRun [prog] fetch =
      ⟨{ initState with stdout := [usageMessage] }, .completedOk⟩ :=
  fun _ _ => rfl

/-- C10: when the IUPAC list is present, the report ends with the IUPAC
Names section holding exactly one line per entry, and an entry whose
optional name is absent renders as the line holding the literal token
Unknown — not the None placeholder and not an omitted line. -/
theorem c10_iupac_unknown : ∀ (c : Compound) (l : List IUPACName),
    c.iupac = some l →
    compoundDisplayLines c =
      preIupacLines c ++ ("IUPAC Names:" :: l.map iupacEntryLine)
    ∧ ∀ n ∈ l, n.name = none → iupacEntryLine n = "  Unknown" := by
  intro c l h
  constructor
  · rw [compoundDisplayLines, h]; rfl
  · intro n hn hname
    simp [iupacEntryLine, hname]

/-- C10 (witness): the theorem applied at a Compound carrying one IUPAC
entry with an absent name. -/
theorem c10_iupac_unknown_witness :
    compoundDisplayLines { emptyCompound with iupac := some [⟨none⟩] } =
      preIupacLines { emptyCompound with iupac := some [⟨none⟩] } ++
        ("IUPAC Names:" :: [IUPACName.mk none].map iupacEntryLine)
    ∧ iupacEntryLine ⟨none⟩ = "  Unknown" := by
  have H := c10_iupac_unknown
    { emptyCompound with iupac := some [⟨none⟩] } [⟨none⟩] rfl
  exact ⟨H.1, H.2 ⟨none⟩ (List.mem_singleton.mpr rfl) rfl⟩

end Pcpug
